import Mathlib

/-!
Verification development for the AMA Streamlit application
(`src/app.py` and `src/ui/langgraph_ui.py`).

The application code is UI glue: it produces user-visible effects
(service calls, messages, chat renderings) in a fixed order determined by
simple branching.  We embed each handler as a pure function from its
inputs (widget state, service responses) to the ordered list of effects
it performs, mirroring the Python control flow statement by statement.
External collaborators (`FileService`, `vectorize`, `get_graph`,
`get_retriever_id`) are parameters: functions whose outcomes we quantify
over, with exceptions modelled as `Except.error`.
-/

/-- A file record as used by this code: only `id` and `name` are read
(`src/app.py` lines 120-132). -/
structure FileRecord where
  id : Nat
  name : String
deriving DecidableEq, Repr

/-- A link record as used by this code: only `url` is read
(`src/ui/langgraph_ui.py` line 121). -/
structure LinkRecord where
  url : String
deriving DecidableEq, Repr

/-- The observable effects of the file-upload handler in `main`
(`src/app.py` lines 115-148): calls into `file_service` and messages
shown to the user, in execution order. -/
inductive UploadAction where
  | delete_file_call (id : Nat)
  | add_file_call (filename : String)
  | warning (msg : String)
  | info (msg : String)
  | success (msg : String)
  | error (msg : String)
deriving DecidableEq, Repr

/-- The interface of the external `FileService` as used by the upload
handler, over an abstract service state `σ`: `get_user_files` reads the
user's files, `delete_file` deletes by id, `add_file` stores a file and
returns the new record or `none` on failure (spec section 6:
`add_file(...) -> FileRecord|None`).  File bytes, file type and user id
are not inspected by the handler logic and are elided. -/
structure FileService (σ : Type) where
  get_user_files : σ → List FileRecord
  delete_file : σ → Nat → σ
  add_file : σ → String → σ × Option FileRecord

/-- One iteration of the upload loop in `main` (`src/app.py` lines
116-148) for a single uploaded file named `filename`: re-fetch the
user's files, check for a name collision, then warn-and-skip, or
delete-the-first-collider-then-add, or just add.  The Python
`for ... if ...: delete; info; break` over `existing_files` deletes only
the first record whose name matches, hence `List.find?`.  Returns the
service state after the iteration and the effect trace. -/
def handleUploadedFile {σ : Type} (svc : FileService σ) (replace_existing : Bool)
    (s : σ) (filename : String) : σ × List UploadAction :=
  let existing_files := svc.get_user_files s
  let duplicate := existing_files.any (fun f => f.name == filename)
  if duplicate && !replace_existing then
    (s, [UploadAction.warning ("File '" ++ filename ++
          "' already exists. Select 'Replace existing files' option to overwrite.")])
  else
    let step1 : σ × List UploadAction :=
      if duplicate && replace_existing then
        match existing_files.find? (fun f => f.name == filename) with
        | some existing_file =>
            (svc.delete_file s existing_file.id,
             [UploadAction.delete_file_call existing_file.id,
              UploadAction.info ("Replacing existing file: " ++ filename)])
        | none => (s, [])
      else (s, [])
    let add_result := svc.add_file step1.1 filename
    let post : List UploadAction :=
      UploadAction.add_file_call filename ::
      (match add_result.2 with
       | some _ => [UploadAction.success ("Uploaded: " ++ filename)]
       | none => [UploadAction.error ("Failed to upload: " ++ filename)])
    (add_result.1, step1.2 ++ post)

/-- The full upload loop of `main` (`src/app.py` lines 116-148) over the
list of uploaded file names, threading the service state and
concatenating the effect traces. -/
def processUploads {σ : Type} (svc : FileService σ) (replace_existing : Bool)
    (s : σ) : List String → σ × List UploadAction
  | [] => (s, [])
  | filename :: rest =>
    let r1 := handleUploadedFile svc replace_existing s filename
    let r2 := processUploads svc replace_existing r1.1 rest
    (r2.1, r1.2 ++ r2.2)

/-- A concrete `FileService` whose state is the literal list of stored
records: delete removes by id, add appends a fresh record.  Used for
concrete evaluations. -/
def listFileService : FileService (List FileRecord) where
  get_user_files s := s
  delete_file s i := s.filter (fun f => f.id ≠ i)
  add_file s filename :=
    let nf : FileRecord := ⟨s.foldl (fun m f => max m f.id) 0 + 1, filename⟩
    (s ++ [nf], some nf)

/-- A `FileService` whose `add_file` always fails (returns `none`),
within the interface contract `add_file(...) -> FileRecord|None`. -/
def failingAddFileService : FileService (List FileRecord) where
  get_user_files s := s
  delete_file s i := s.filter (fun f => f.id ≠ i)
  add_file s _ := (s, none)

/-- A chat-history entry as built at `src/ui/langgraph_ui.py` lines
189-193: `{"question": prompt, "answer": final_state["generation"],
"events": []}`. -/
structure HistoryEntry where
  question : String
  answer : String
  events : List String
deriving DecidableEq, Repr

/-- The observable renderings of the LangGraph chat section
(`src/ui/langgraph_ui.py`), in execution order. -/
inductive ChatAction where
  | user_write (s : String)
  | ai_write (s : String)
  | ai_error (s : String)
  | ai_warning (s : String)
deriving DecidableEq, Repr

/-- Python's `str.startswith(pre)`, modelled on the underlying
character lists. -/
def strStartsWith (s pre : String) : Bool :=
  pre.data.isPrefixOf s.data

/-- `display_result` (`src/ui/langgraph_ui.py` lines 162-170): the
question bubble when `show_question`, then either a single chat error
(when the answer starts with `"Error"`) or the answer followed by its
events. -/
def display_result (item : HistoryEntry) (show_question : Bool) : List ChatAction :=
  (if show_question then [ChatAction.user_write item.question] else []) ++
  (if strStartsWith item.answer "Error" then
    [ChatAction.ai_error item.answer]
  else
    ChatAction.ai_write item.answer :: item.events.map ChatAction.ai_write)

/-- The observable effects of the build-index branch
(`src/ui/langgraph_ui.py` lines 140-155): the `vectorize` call and the
banners shown, in execution order. -/
inductive IndexAction where
  | vectorize_call (files : List FileRecord) (links : List LinkRecord)
  | warning_banner (msg : String)
  | error_banner (msg : String)
  | success_banner (msg : String)
deriving DecidableEq, Repr

/-- The build-index click handler (`src/ui/langgraph_ui.py` lines
140-155): with nothing selected, warn and never call `vectorize`;
otherwise call `vectorize` and show a success or error banner.  The
external `vectorize` is a parameter whose exceptions are
`Except.error`; the `try`/`except` at lines 146-155 turns an exception
into an error banner, so the handler's result is a total effect trace -
nothing propagates. -/
def buildIndexClick (selected_files : List FileRecord) (selected_links : List LinkRecord)
    (vectorize : List FileRecord → List LinkRecord → Except String Bool) :
    List IndexAction :=
  if selected_files.isEmpty && selected_links.isEmpty then
    [IndexAction.warning_banner "Please select at least one file or link to build the index."]
  else
    IndexAction.vectorize_call selected_files selected_links ::
    (match vectorize selected_files selected_links with
     | Except.ok true => [IndexAction.success_banner "Vector store initialized successfully!"]
     | Except.ok false => [IndexAction.error_banner "Failed to initialize vector store."]
     | Except.error e => [IndexAction.error_banner ("Error initializing vector store: " ++ e)])

/-- The input dict passed to the graph (`src/ui/langgraph_ui.py` line
186): `{"question": prompt, "retriever_id": retriever_id}`. -/
structure GraphInputs where
  question : String
  retriever_id : String
deriving DecidableEq, Repr

/-- The graph's final state as read by this code
(`src/ui/langgraph_ui.py` line 191): only `generation` is accessed. -/
structure GraphState where
  generation : String
deriving DecidableEq, Repr

/-- The chat-input handler (`src/ui/langgraph_ui.py` lines 176-197):
echo the prompt, warn if nothing is selected, build the inputs from
`get_retriever_id`, invoke the graph once, and on success append the
wrapped result to the history and display it.  There is no
`try`/`except` around `app.invoke`, so a graph exception propagates out
of the handler (`Except.error`), leaving the history untouched.
Returns the list of graph invocations made, the history after the
handler, and either the renderings or the propagated exception. -/
def handlePrompt (get_retriever_id : List FileRecord → List LinkRecord → String)
    (invoke : GraphInputs → Except String GraphState)
    (selected_files : List FileRecord) (selected_links : List LinkRecord)
    (prompt : String) (history : List HistoryEntry) :
    List GraphInputs × List HistoryEntry × Except String (List ChatAction) :=
  let pre : List ChatAction :=
    ChatAction.user_write prompt ::
    (if selected_files.isEmpty && selected_links.isEmpty then
      [ChatAction.ai_warning
        "You haven't selected any files or links. LangGraph will use default sources or web search."]
    else [])
  let retriever_id := get_retriever_id selected_files selected_links
  let inputs : GraphInputs := ⟨prompt, retriever_id⟩
  match invoke inputs with
  | Except.error e => ([inputs], history, Except.error e)
  | Except.ok final_state =>
    let result : HistoryEntry := ⟨prompt, final_state.generation, []⟩
    ([inputs], history ++ [result], Except.ok (pre ++ display_result result false))

/-- The user interactions that can touch `langgraph_history` within a
session (`src/ui/langgraph_ui.py`). -/
inductive SessionOp where
  | submit_prompt (files : List FileRecord) (links : List LinkRecord) (prompt : String)
  | build_index (files : List FileRecord) (links : List LinkRecord)
  | download_history
  | clear_history
deriving Repr

/-- How one interaction transforms the session's history list:
`submit_prompt` runs `handlePrompt` (append on success, unchanged on a
graph exception), `build_index` and `download_history` never touch the
history, and `clear_history` sets it to `[]`
(`src/ui/langgraph_ui.py` lines 196 and 209). -/
def sessionStep (get_retriever_id : List FileRecord → List LinkRecord → String)
    (invoke : GraphInputs → Except String GraphState)
    (history : List HistoryEntry) : SessionOp → List HistoryEntry
  | SessionOp.submit_prompt files links prompt =>
      (handlePrompt get_retriever_id invoke files links prompt history).2.1
  | SessionOp.build_index _ _ => history
  | SessionOp.download_history => history
  | SessionOp.clear_history => []

/-- JSON values, as needed for the history document: the serialized
history uses only strings, arrays and objects. -/
inductive Json where
  | str (s : String)
  | arr (items : List Json)
  | obj (fields : List (String × Json))
deriving Repr

/-- The JSON document of one history entry, with the field names and
order the Python dict literal gives it (`src/ui/langgraph_ui.py` lines
189-193): `question`, `answer`, `events`. -/
def entryToJson (e : HistoryEntry) : Json :=
  Json.obj [("question", Json.str e.question),
            ("answer", Json.str e.answer),
            ("events", Json.arr (e.events.map Json.str))]

/-- The JSON document serialized for download: the array of entry
objects, in history order. -/
def historyToJson (h : List HistoryEntry) : Json :=
  Json.arr (h.map entryToJson)

/-- Read back a list of JSON strings. -/
def stringsOfJson : List Json → Option (List String)
  | [] => some []
  | Json.str s :: rest => (stringsOfJson rest).map (fun l => s :: l)
  | _ => none

/-- Parse one history entry back from its JSON object. -/
def entryOfJson : Json → Option HistoryEntry
  | Json.obj [("question", Json.str q), ("answer", Json.str a),
              ("events", Json.arr ev)] =>
      (stringsOfJson ev).map (fun evs => ⟨q, a, evs⟩)
  | _ => none

/-- Parse each entry of a JSON array of history objects. -/
def entriesOfJson : List Json → Option (List HistoryEntry)
  | [] => some []
  | j :: rest =>
      match entryOfJson j with
      | some e => (entriesOfJson rest).map (fun l => e :: l)
      | none => none

/-- Parse a history list back from its JSON array. -/
def historyOfJson : Json → Option (List HistoryEntry)
  | Json.arr items => entriesOfJson items
  | _ => none

/-- One hex digit, lowercase. -/
def hexDigit (n : Nat) : Char :=
  if n < 10 then Char.ofNat (48 + n) else Char.ofNat (87 + n)

/-- Four-digit lowercase hex, as in Python's \uXXXX escapes. -/
def hex4 (n : Nat) : String :=
  String.mk [hexDigit (n / 4096 % 16), hexDigit (n / 256 % 16),
             hexDigit (n / 16 % 16), hexDigit (n % 16)]

/-- Escape one character as Python `json.dumps` does (default
`ensure_ascii=True`): two-character escapes for quote, backslash and
the common control characters, \uXXXX for other control or non-ASCII
BMP characters, and a surrogate pair beyond the BMP. -/
def escapeChar (c : Char) : String :=
  if c = '"' then "\\\""
  else if c = '\\' then "\\\\"
  else if c = Char.ofNat 10 then "\\n"
  else if c = Char.ofNat 9 then "\\t"
  else if c = Char.ofNat 13 then "\\r"
  else if c = Char.ofNat 8 then "\\b"
  else if c = Char.ofNat 12 then "\\f"
  else if c.toNat < 32 then "\\u" ++ hex4 c.toNat
  else if c.toNat < 127 then String.singleton c
  else if c.toNat < 65536 then "\\u" ++ hex4 c.toNat
  else
    let v := c.toNat - 65536
    "\\u" ++ hex4 (55296 + v / 1024) ++ "\\u" ++ hex4 (56320 + v % 1024)

/-- Escape a string as `json.dumps` does. -/
def escapeString (s : String) : String :=
  s.data.foldl (fun acc c => acc ++ escapeChar c) ""

/-- A run of `n` spaces. -/
def spaces (n : Nat) : String :=
  String.mk (List.replicate n ' ')

/-- Join strings with a separator. -/
def joinWith (sep : String) : List String → String
  | [] => ""
  | [x] => x
  | x :: rest => x ++ sep ++ joinWith sep rest

mutual
/-- `json.dumps(value, indent=indent)` at nesting depth `level`: quoted
escaped strings; arrays and objects spread over lines, each item on its
own line indented by `indent * (level + 1)` spaces, items separated by
commas, the closing bracket indented by `indent * level`; empty arrays
and objects stay on one line. -/
def jsonDumpsAux (indent level : Nat) : Json → String
  | Json.str s => "\"" ++ escapeString s ++ "\""
  | Json.arr items =>
      match jsonDumpsItems indent (level + 1) items with
      | [] => "[]"
      | rendered =>
          "[\n" ++
          joinWith ",\n" (rendered.map (fun r => spaces (indent * (level + 1)) ++ r)) ++
          "\n" ++ spaces (indent * level) ++ "]"
  | Json.obj fields =>
      match jsonDumpsFields indent (level + 1) fields with
      | [] => "\x7b\x7d"
      | rendered =>
          "\x7b\n" ++
          joinWith ",\n" (rendered.map (fun r => spaces (indent * (level + 1)) ++ r)) ++
          "\n" ++ spaces (indent * level) ++ "\x7d"

/-- Render each array item. -/
def jsonDumpsItems (indent level : Nat) : List Json → List String
  | [] => []
  | j :: rest => jsonDumpsAux indent level j :: jsonDumpsItems indent level rest

/-- Render each quoted key with its value. -/
def jsonDumpsFields (indent level : Nat) : List (String × Json) → List String
  | [] => []
  | (k, v) :: rest =>
      ("\"" ++ escapeString k ++ "\": " ++ jsonDumpsAux indent level v) ::
      jsonDumpsFields indent level rest
end

/-- `json.dumps(value, indent=indent)`. -/
def jsonDumps (indent : Nat) (j : Json) : String :=
  jsonDumpsAux indent 0 j

/-- The arguments of the `st.download_button` call
(`src/ui/langgraph_ui.py` lines 201-207). -/
structure DownloadButton where
  label : String
  key : String
  data : String
  file_name : String
  mime : String
deriving DecidableEq, Repr

/-- The history-download section (`src/ui/langgraph_ui.py` lines
200-207): rendered only when the history is nonempty, with
`data=json.dumps(st.session_state.langgraph_history, indent=4)`,
`file_name="rag_chat_history.json"` and `mime="application/json"`. -/
def downloadSection (history : List HistoryEntry) : Option DownloadButton :=
  if history.isEmpty then none
  else some
    { label := "Download History"
      key := "rag_chat_history_download"
      data := jsonDumps 4 (historyToJson history)
      file_name := "rag_chat_history.json"
      mime := "application/json" }

/-- Helper: a successful `find?` means the scan for a duplicate name
succeeds too. -/
theorem any_of_find_first {l : List FileRecord} {p : FileRecord → Bool} {f : FileRecord}
    (h : l.find? p = some f) : l.any p = true :=
  List.any_eq_true.mpr ⟨f, List.mem_of_find?_eq_some h, List.find?_some h⟩

/-- C1 (counterexample): with two existing files both named `a`
(both collide with the upload), `replace_existing=True` deletes only
the first of them - `delete_file` is never called on the second - so
the claim that every colliding existing file is deleted fails. -/
theorem C1_counterexample :
    ((⟨1, "a"⟩ : FileRecord).name == "a") = true ∧
    ((⟨2, "a"⟩ : FileRecord).name == "a") = true ∧
    UploadAction.delete_file_call 2 ∉
      (handleUploadedFile listFileService true [⟨1, "a"⟩, ⟨2, "a"⟩] "a").2 ∧
    (handleUploadedFile listFileService true [⟨1, "a"⟩, ⟨2, "a"⟩] "a").2 =
      [UploadAction.delete_file_call 1,
       UploadAction.info "Replacing existing file: a",
       UploadAction.add_file_call "a",
       UploadAction.success "Uploaded: a"] := by
  decide

/-- C1 (amended): with `replace_existing=True` and a name collision,
the handler calls `delete_file` on the FIRST colliding existing file
only (the loop `break`s after the first match), then calls `add_file`,
with the single delete happening before the add. -/
theorem C1_replace_deletes_first_collider_then_adds {σ : Type}
    (svc : FileService σ) (s : σ) (filename : String) (f : FileRecord)
    (hfind : (svc.get_user_files s).find? (fun g => g.name == filename) = some f) :
    (handleUploadedFile svc true s filename).2 =
      UploadAction.delete_file_call f.id ::
      UploadAction.info ("Replacing existing file: " ++ filename) ::
      UploadAction.add_file_call filename ::
      (match (svc.add_file (svc.delete_file s f.id) filename).2 with
       | some _ => [UploadAction.success ("Uploaded: " ++ filename)]
       | none => [UploadAction.error ("Failed to upload: " ++ filename)]) := by
  have hdup := any_of_find_first hfind
  simp [handleUploadedFile, hdup, hfind]

/-- C1 witness: the amended statement at a concrete service state. -/
theorem C1_replace_witness :
    (handleUploadedFile listFileService true [⟨1, "a"⟩, ⟨2, "a"⟩] "a").2 =
      [UploadAction.delete_file_call 1,
       UploadAction.info "Replacing existing file: a",
       UploadAction.add_file_call "a",
       UploadAction.success "Uploaded: a"] :=
  C1_replace_deletes_first_collider_then_adds listFileService
    [⟨1, "a"⟩, ⟨2, "a"⟩] "a" ⟨1, "a"⟩ (by decide)

/-- C2: when the graph invocation raises, the handler makes exactly one
invocation (no retry), leaves the history untouched (no partial
result), and its sole outcome is the propagated exception message,
which is what gets displayed to the user. -/
theorem C2_graph_exception_single_invoke_no_partial
    (get_retriever_id : List FileRecord → List LinkRecord → String)
    (invoke : GraphInputs → Except String GraphState)
    (files : List FileRecord) (links : List LinkRecord)
    (prompt : String) (history : List HistoryEntry) (e : String)
    (hfail : invoke ⟨prompt, get_retriever_id files links⟩ = Except.error e) :
    handlePrompt get_retriever_id invoke files links prompt history =
      ([⟨prompt, get_retriever_id files links⟩], history, Except.error e) := by
  simp [handlePrompt, hfail]

/-- C2 witness: a concrete always-failing graph. -/
theorem C2_graph_exception_witness :
    handlePrompt (fun _ _ => "rid") (fun _ => Except.error "boom")
        [] [] "q" [⟨"p", "a", []⟩] =
      ([⟨"q", "rid"⟩], [⟨"p", "a", []⟩], Except.error "boom") :=
  C2_graph_exception_single_invoke_no_partial (fun _ _ => "rid")
    (fun _ => Except.error "boom") [] [] "q" [⟨"p", "a", []⟩] "boom" rfl

/-- C3: on a name collision with `replace_existing=False`, the handler
performs no service call at all for that file - its whole trace is the
single warning and the service state is returned unchanged - and the
loop continues with the remaining uploaded files from that same
state. -/
theorem C3_collision_without_replace_skips {σ : Type}
    (svc : FileService σ) (s : σ) (filename : String) (rest : List String)
    (hdup : (svc.get_user_files s).any (fun f => f.name == filename) = true) :
    handleUploadedFile svc false s filename =
      (s, [UploadAction.warning ("File '" ++ filename ++
            "' already exists. Select 'Replace existing files' option to overwrite.")]) ∧
    processUploads svc false s (filename :: rest) =
      ((processUploads svc false s rest).1,
       UploadAction.warning ("File '" ++ filename ++
         "' already exists. Select 'Replace existing files' option to overwrite.") ::
       (processUploads svc false s rest).2) := by
  have h1 : handleUploadedFile svc false s filename =
      (s, [UploadAction.warning ("File '" ++ filename ++
            "' already exists. Select 'Replace existing files' option to overwrite.")]) := by
    simp [handleUploadedFile, hdup]
  exact ⟨h1, by simp [processUploads, h1]⟩

/-- C3 witness: concrete colliding upload, skipped, next file still
processed. -/
theorem C3_collision_witness :
    handleUploadedFile listFileService false [⟨1, "a"⟩] "a" =
      ([⟨1, "a"⟩],
       [UploadAction.warning
          "File 'a' already exists. Select 'Replace existing files' option to overwrite."]) ∧
    processUploads listFileService false [⟨1, "a"⟩] ["a", "b"] =
      ((processUploads listFileService false [⟨1, "a"⟩] ["b"]).1,
       UploadAction.warning
         "File 'a' already exists. Select 'Replace existing files' option to overwrite." ::
       (processUploads listFileService false [⟨1, "a"⟩] ["b"]).2) :=
  C3_collision_without_replace_skips listFileService [⟨1, "a"⟩] "a" ["b"] (by decide)

/-- C4 (counterexample): with no name collision, `add_file` is called
but when it returns `None` the handler shows an error message, not a
success message - so the claim that a collision-free upload always
shows success fails. -/
theorem C4_counterexample :
    (failingAddFileService.get_user_files []).any (fun f => f.name == "a") = false ∧
    (handleUploadedFile failingAddFileService false [] "a").2 =
      [UploadAction.add_file_call "a", UploadAction.error "Failed to upload: a"] ∧
    UploadAction.success "Uploaded: a" ∉
      (handleUploadedFile failingAddFileService false [] "a").2 := by
  decide

/-- C4 (amended): with no name collision the handler always calls
`add_file`, and then shows a success message when `add_file` returns a
file model, otherwise an error message. -/
theorem C4_no_collision_adds_and_reports {σ : Type}
    (svc : FileService σ) (s : σ) (replace_existing : Bool) (filename : String)
    (hnodup : (svc.get_user_files s).any (fun f => f.name == filename) = false) :
    (handleUploadedFile svc replace_existing s filename).2 =
      UploadAction.add_file_call filename ::
      (match (svc.add_file s filename).2 with
       | some _ => [UploadAction.success ("Uploaded: " ++ filename)]
       | none => [UploadAction.error ("Failed to upload: " ++ filename)]) := by
  simp [handleUploadedFile, hnodup]

/-- C4 witness: the amended statement at a concrete succeeding add. -/
theorem C4_no_collision_witness :
    (handleUploadedFile listFileService false [⟨1, "b"⟩] "a").2 =
      [UploadAction.add_file_call "a", UploadAction.success "Uploaded: a"] :=
  C4_no_collision_adds_and_reports listFileService [⟨1, "b"⟩] false "a" (by decide)

/-- C5: every submitted prompt produces exactly one synchronous graph
invocation, whose input is exactly
`{question := prompt, retriever_id := get_retriever_id files links}`;
and when the invocation returns a state, the entry
`{question := prompt, answer := state.generation, events := []}` is
appended at the end of the session history. -/
theorem C5_invoke_exact_inputs_and_append
    (get_retriever_id : List FileRecord → List LinkRecord → String)
    (invoke : GraphInputs → Except String GraphState)
    (files : List FileRecord) (links : List LinkRecord)
    (prompt : String) (history : List HistoryEntry) :
    (handlePrompt get_retriever_id invoke files links prompt history).1 =
      [⟨prompt, get_retriever_id files links⟩] ∧
    ∀ final_state, invoke ⟨prompt, get_retriever_id files links⟩ = Except.ok final_state →
      (handlePrompt get_retriever_id invoke files links prompt history).2.1 =
        history ++ [⟨prompt, final_state.generation, []⟩] := by
  constructor
  · cases hinv : invoke ⟨prompt, get_retriever_id files links⟩ <;>
      simp [handlePrompt, hinv]
  · intro final_state hinv
    simp [handlePrompt, hinv]

/-- C5 witness: a concrete graph returning `generation = "gen"`. -/
theorem C5_invoke_witness :
    (handlePrompt (fun _ _ => "rid") (fun _ => Except.ok ⟨"gen"⟩) [] [] "q" [⟨"p", "a", []⟩]).1 =
      [⟨"q", "rid"⟩] ∧
    (handlePrompt (fun _ _ => "rid") (fun _ => Except.ok ⟨"gen"⟩) [] [] "q" [⟨"p", "a", []⟩]).2.1 =
      [⟨"p", "a", []⟩] ++ [⟨"q", "gen", []⟩] :=
  ⟨(C5_invoke_exact_inputs_and_append (fun _ _ => "rid") (fun _ => Except.ok ⟨"gen"⟩)
      [] [] "q" [⟨"p", "a", []⟩]).1,
   (C5_invoke_exact_inputs_and_append (fun _ _ => "rid") (fun _ => Except.ok ⟨"gen"⟩)
      [] [] "q" [⟨"p", "a", []⟩]).2 ⟨"gen"⟩ rfl⟩

/-- Helper: parsing back a list of JSON strings recovers the list. -/
theorem stringsOfJson_map_str (l : List String) :
    stringsOfJson (l.map Json.str) = some l := by
  induction l with
  | nil => rfl
  | cons a t ih => simp [stringsOfJson, ih]

/-- Helper: one entry round-trips through its JSON object. -/
theorem entryOfJson_entryToJson (e : HistoryEntry) :
    entryOfJson (entryToJson e) = some e := by
  simp [entryOfJson, entryToJson, stringsOfJson_map_str]

/-- Helper: a history list round-trips through its JSON array. -/
theorem historyOfJson_historyToJson (h : List HistoryEntry) :
    historyOfJson (historyToJson h) = some h := by
  induction h with
  | nil => rfl
  | cons a t ih =>
    simp only [historyOfJson, historyToJson, List.map_cons] at ih ⊢
    simp [entriesOfJson, entryOfJson_entryToJson, ih]

/-- C6: within a session every interaction either leaves the history
list unchanged or appends exactly one entry at its end, except the
explicit clear action which resets it to the empty list. -/
theorem C6_history_append_only_or_clear
    (get_retriever_id : List FileRecord → List LinkRecord → String)
    (invoke : GraphInputs → Except String GraphState)
    (history : List HistoryEntry) (op : SessionOp) :
    (op = SessionOp.clear_history →
      sessionStep get_retriever_id invoke history op = []) ∧
    (op ≠ SessionOp.clear_history →
      sessionStep get_retriever_id invoke history op = history ∨
      ∃ entry, sessionStep get_retriever_id invoke history op = history ++ [entry]) := by
  cases op with
  | submit_prompt files links prompt =>
    constructor
    · intro h
      cases h
    · intro _
      cases hinv : invoke ⟨prompt, get_retriever_id files links⟩ with
      | error e => exact Or.inl (by simp [sessionStep, handlePrompt, hinv])
      | ok final_state =>
        exact Or.inr ⟨⟨prompt, final_state.generation, []⟩,
          by simp [sessionStep, handlePrompt, hinv]⟩
  | build_index files links =>
    constructor
    · intro h
      cases h
    · exact fun _ => Or.inl rfl
  | download_history =>
    constructor
    · intro h
      cases h
    · exact fun _ => Or.inl rfl
  | clear_history => exact ⟨fun _ => rfl, fun h => absurd rfl h⟩

/-- C6 witness: clearing a concrete nonempty history empties it. -/
theorem C6_clear_witness :
    sessionStep (fun _ _ => "rid") (fun _ => Except.ok ⟨"gen"⟩)
      [⟨"p", "a", []⟩] SessionOp.clear_history = [] :=
  (C6_history_append_only_or_clear (fun _ _ => "rid") (fun _ => Except.ok ⟨"gen"⟩)
    [⟨"p", "a", []⟩] SessionOp.clear_history).1 rfl

/-- C7: for every nonempty in-session history, the download button
carries exactly the JSON serialization of that list (indent 4), under
filename `rag_chat_history.json` with MIME `application/json`, and
parsing the serialized document yields the original list - same
entries, same order, same field names. -/
theorem C7_download_roundtrip (h : List HistoryEntry) (hne : h ≠ []) :
    downloadSection h = some
      { label := "Download History"
        key := "rag_chat_history_download"
        data := jsonDumps 4 (historyToJson h)
        file_name := "rag_chat_history.json"
        mime := "application/json" } ∧
    historyOfJson (historyToJson h) = some h := by
  constructor
  · cases h with
    | nil => exact absurd rfl hne
    | cons a t => simp [downloadSection]
  · exact historyOfJson_historyToJson h

/-- C7 witness: a concrete one-entry history. -/
theorem C7_download_witness :
    downloadSection [⟨"q", "a", ["e"]⟩] = some
      { label := "Download History"
        key := "rag_chat_history_download"
        data := jsonDumps 4 (historyToJson [⟨"q", "a", ["e"]⟩])
        file_name := "rag_chat_history.json"
        mime := "application/json" } ∧
    historyOfJson (historyToJson [⟨"q", "a", ["e"]⟩]) = some [⟨"q", "a", ["e"]⟩] :=
  C7_download_roundtrip [⟨"q", "a", ["e"]⟩] (List.cons_ne_nil _ _)

/-- C8: an entry whose answer starts with `"Error"` is rendered through
the error path (a single chat error after the optional question), an
entry whose answer does not is rendered through the normal path (the
answer then its events), and no entry can take both paths. -/
theorem C8_error_prefix_paths (item : HistoryEntry) (show_question : Bool) :
    (strStartsWith item.answer "Error" = true →
      display_result item show_question =
        (if show_question then [ChatAction.user_write item.question] else []) ++
        [ChatAction.ai_error item.answer]) ∧
    (strStartsWith item.answer "Error" = false →
      display_result item show_question =
        (if show_question then [ChatAction.user_write item.question] else []) ++
        ChatAction.ai_write item.answer :: item.events.map ChatAction.ai_write) ∧
    ¬(strStartsWith item.answer "Error" = true ∧
      strStartsWith item.answer "Error" = false) := by
  refine ⟨fun h => by simp [display_result, h],
          fun h => by simp [display_result, h],
          fun hc => by rw [hc.1] at hc; exact Bool.noConfusion hc.2⟩

/-- C8 witness: a concrete `"Error..."` answer takes the error path. -/
theorem C8_error_prefix_witness :
    display_result ⟨"q", "Error: boom", ["e"]⟩ true =
      [ChatAction.user_write "q"] ++ [ChatAction.ai_error "Error: boom"] :=
  (C8_error_prefix_paths ⟨"q", "Error: boom", ["e"]⟩ true).1 (by decide)

/-- C9: when `vectorize` is reached (some file or link is selected) and
raises an exception, the handler catches it at the call site and its
whole outcome is the error banner carrying the exception message - the
trace is total, nothing propagates out of the handler. -/
theorem C9_vectorize_exception_banner
    (files : List FileRecord) (links : List LinkRecord)
    (vectorize : List FileRecord → List LinkRecord → Except String Bool) (e : String)
    (hne : (files.isEmpty && links.isEmpty) = false)
    (hfail : vectorize files links = Except.error e) :
    buildIndexClick files links vectorize =
      [IndexAction.vectorize_call files links,
       IndexAction.error_banner ("Error initializing vector store: " ++ e)] := by
  simp [buildIndexClick, hne, hfail]

/-- C9 witness: a concrete raising `vectorize`. -/
theorem C9_vectorize_exception_witness :
    buildIndexClick [⟨1, "a"⟩] [] (fun _ _ => Except.error "boom") =
      [IndexAction.vectorize_call [⟨1, "a"⟩] [],
       IndexAction.error_banner ("Error initializing vector store: " ++ "boom")] :=
  C9_vectorize_exception_banner [⟨1, "a"⟩] [] (fun _ _ => Except.error "boom")
    "boom" rfl rfl

/-- C10: with nothing selected, the build-index click shows only the
warning (in particular `vectorize` is never called); and a `vectorize`
call can appear in the trace only when at least one file or link is
selected. -/
theorem C10_empty_selection_no_vectorize
    (files : List FileRecord) (links : List LinkRecord)
    (vectorize : List FileRecord → List LinkRecord → Except String Bool) :
    ((files.isEmpty && links.isEmpty) = true →
      buildIndexClick files links vectorize =
        [IndexAction.warning_banner
          "Please select at least one file or link to build the index."]) ∧
    (∀ f l, IndexAction.vectorize_call f l ∈ buildIndexClick files links vectorize →
      (files.isEmpty && links.isEmpty) = false) := by
  constructor
  · intro h
    simp [buildIndexClick, h]
  · intro f l hmem
    cases hb : (files.isEmpty && links.isEmpty) with
    | true => simp [buildIndexClick, hb] at hmem
    | false => rfl

/-- C10 witness: empty selection, concrete `vectorize` never called. -/
theorem C10_empty_selection_witness :
    buildIndexClick [] [] (fun _ _ => Except.ok true) =
      [IndexAction.warning_banner
        "Please select at least one file or link to build the index."] :=
  (C10_empty_selection_no_vectorize [] [] (fun _ _ => Except.ok true)).1 rfl
